import Mathlib

/-!
Verification development for the evm-ds repository (src/main.rs,
src/scillabackend.rs): a shallow embedding of the State Backend Adapter
(ScillaBackend) and the Execution Orchestrator (run_evm_impl), together with
theorems about their behaviour.

Modelling conventions:
  * serde_json::Value is modelled by Json below (the Object variant is
    unused by the embedded code paths and is omitted).
  * A Rust panic is modelled by Outcome.panicked; code that cannot panic at
    a point simply returns Outcome.ok.
  * The remote node (a JSON-RPC server reached over a Unix socket) is
    modelled by Remote, one field per RPC method used by the backend
    (fetchBlockchainInfo, fetchExternalStateValueB64).  The wire codecs in
    between (hex encoding of the address argument, base64+protobuf encoding
    of ProtoScillaQuery) are injective library transforms, so the remote is
    modelled as receiving the pre-codec structured arguments directly.
  * Machine integers (u64) are modelled as Nat with an explicit bound or
    modulus 2 ^ 64 where overflow matters.
-/

namespace EvmDs

/-- Model of serde_json::Value restricted to the shapes the embedded code
produces or consumes.  A JSON number carries its (non-negative integer)
value; numbers that have no u64 representation (negative, fractional) are
covered by the other constructors never yielding asU64. -/
inductive Json where
  | null
  | bool (b : Bool)
  | num (n : Nat)
  | str (s : String)
  | arr (elems : List Json)

/-- serde_json::Value::get with a numeric index: Some only on an Array with
the index in range. -/
def Json.get : Json → Nat → Option Json
  | Json.arr xs, i => xs.get? i
  | _, _ => none

/-- serde_json::Value::as_bool. -/
def Json.asBool : Json → Option Bool
  | Json.bool b => some b
  | _ => none

/-- serde_json::Value::as_u64: Some exactly when the value is a number
representable as an unsigned 64-bit integer. -/
def Json.asU64 : Json → Option Nat
  | Json.num n => if n < 2 ^ 64 then some n else none
  | _ => none

/-- serde_json::Value::as_str. -/
def Json.asStr : Json → Option String
  | Json.str s => some s
  | _ => none

/-- serde_json::from_value for u64: succeeds exactly on numbers with a u64
representation (same criterion as as_u64). -/
def from_value_u64 (v : Json) : Option Nat := v.asU64

/-- Result of running a piece of Rust code that may panic. -/
inductive Outcome (α : Type) where
  | ok (val : α)
  | panicked
deriving DecidableEq

/-- What the remote node does with one RPC call: answer with a JSON value,
fail at the transport level, or exceed the 2 second timeout. -/
inductive RemoteReply where
  | value (v : Json)
  | transportError
  | timeout

/-- ProtoScillaQuery (protos/ScillaMessage): name, indices (byte strings),
map nesting depth. -/
structure ProtoScillaQuery where
  name : String
  indices : List (List Nat)
  mapdepth : Nat

/-- The remote node, one field per JSON-RPC method the backend calls.
fetchBlockchainInfo receives (query_name, query_args); the state-value
method receives the (pre-codec) account address bytes and the structured
ProtoScillaQuery. -/
structure Remote where
  blockchainInfo : String → String → RemoteReply
  externalStateValue : List Nat → ProtoScillaQuery → RemoteReply

/-- Models call_ipc_server_api (scillabackend.rs:46-70): a fresh
single-purpose tokio runtime performs the call; a transport-level error
(the unwrap_or_else at lines 63-66) or a timeout (line 68) panics, and a
successful call yields the JSON value. -/
def call_ipc_server_api : RemoteReply → Outcome Json
  | RemoteReply.value v => Outcome.ok v
  | RemoteReply.transportError => Outcome.panicked
  | RemoteReply.timeout => Outcome.panicked

/-- Models ScillaBackend::query_jsonrpc (scillabackend.rs:72-89): calls
fetchBlockchainInfo with query_name and query_args (empty string when
absent), then asserts that element 0 of the response exists, is a boolean
and is true (panicking otherwise), and returns element 1 of the response
(panicking when it is absent). -/
def query_jsonrpc (r : Remote) (query_name : String) (query_args : Option String) :
    Outcome Json :=
  match call_ipc_server_api (r.blockchainInfo query_name (query_args.getD "")) with
  | Outcome.panicked => Outcome.panicked
  | Outcome.ok result =>
    match result.get 0 with
    | none => Outcome.panicked
    | some v0 =>
      match v0.asBool with
      | none => Outcome.panicked
      | some b =>
        if b then
          match result.get 1 with
          | none => Outcome.panicked
          | some v1 => Outcome.ok v1
        else Outcome.panicked

/-- Models ScillaBackend::query_jsonrpc_u64 (scillabackend.rs:91-95): the
response value is deserialized as u64, with a failed parse replaced by the
default 0. -/
def query_jsonrpc_u64 (r : Remote) (query_name : String) : Outcome Nat :=
  match query_jsonrpc r query_name none with
  | Outcome.panicked => Outcome.panicked
  | Outcome.ok v => Outcome.ok ((from_value_u64 v).getD 0)

/-- Result of ScillaBackend::query_state_value (scillabackend.rs:97-159):
the call can panic (inside call_ipc_server_api), return
Err(Error::internal_error()), Ok(None), or Ok(Some value). -/
inductive QSVResult where
  | panicked
  | err
  | okNone
  | okSome (v : Json)

/-- Models ScillaBackend::query_state_value (scillabackend.rs:97-159).  The
query message carries the variable name, the optional index key (with
mapdepth 1 when present, 0 otherwise).  Element 0 of the response defaults
to false when absent and use_default is set, else its absence is an
internal error; a non-true element 0 yields Ok(None).  Element 1 defaults
to the empty string when absent and use_default is set, else its absence is
an internal error. -/
def query_state_value (r : Remote) (address : List Nat) (query_name : String)
    (key : Option (List Nat)) (use_default : Bool) : QSVResult :=
  let query : ProtoScillaQuery :=
    match key with
    | some k => { name := query_name, indices := [k], mapdepth := 1 }
    | none => { name := query_name, indices := [], mapdepth := 0 }
  match call_ipc_server_api (r.externalStateValue address query) with
  | Outcome.panicked => QSVResult.panicked
  | Outcome.ok result =>
    let e0 : Except Unit Json :=
      match result.get 0 with
      | none => if use_default then Except.ok (Json.bool false) else Except.error ()
      | some v => Except.ok v
    match e0 with
    | Except.error _ => QSVResult.err
    | Except.ok v0 =>
      if (v0.asBool).getD false then
        match result.get 1 with
        | none =>
          if use_default then QSVResult.okSome (Json.str "") else QSVResult.err
        | some v1 => QSVResult.okSome v1
      else QSVResult.okNone

/-- Hex value of one character, as accepted by the hex crate (both cases). -/
def hexDigitVal (c : Char) : Option Nat :=
  if 48 ≤ c.toNat ∧ c.toNat ≤ 57 then some (c.toNat - 48)
  else if 97 ≤ c.toNat ∧ c.toNat ≤ 102 then some (c.toNat - 97 + 10)
  else if 65 ≤ c.toNat ∧ c.toNat ≤ 70 then some (c.toNat - 65 + 10)
  else none

/-- hex::decode over a character list: pairs of hex digits; an odd length or
an invalid character is an error. -/
def hexDecodeChars : List Char → Option (List Nat)
  | [] => some []
  | [_] => none
  | c1 :: c2 :: rest =>
    match hexDigitVal c1, hexDigitVal c2, hexDecodeChars rest with
    | some h, some l, some tail => some ((h * 16 + l) :: tail)
    | _, _, _ => none

/-- hex::decode on a string. -/
def hexDecode (s : String) : Option (List Nat) := hexDecodeChars s.data

/-- Lower-case hex character of a value below 16 (hex::encode output). -/
def hexDigitChar (n : Nat) : Char :=
  if n < 10 then Char.ofNat (48 + n) else Char.ofNat (87 + n)

/-- hex::encode over bytes, producing the character list. -/
def hexEncodeChars : List Nat → List Char
  | [] => []
  | b :: rest => hexDigitChar (b / 16 % 16) :: hexDigitChar (b % 16) :: hexEncodeChars rest

/-- hex::encode on bytes. -/
def hexEncode (bs : List Nat) : String := String.mk (hexEncodeChars bs)

/-- Vec::resize(n, 0): truncate to the first n bytes, or extend by appending
zeros at the end, so that the result always has length n. -/
def resizeZero (xs : List Nat) (n : Nat) : List Nat :=
  xs.take n ++ List.replicate (n - xs.length) 0

/-- Value of a byte string read in big-endian order (the convention of
H256::from_slice / H160). -/
def beVal (bs : List Nat) : Nat := bs.foldl (fun acc b => acc * 256 + b) 0

/-- BASE_CHAIN_ID (scillabackend.rs:20). -/
def BASE_CHAIN_ID : Nat := 33000

/-- evm::backend::Basic: balance and nonce of an account (both built from a
u64 via U256::from in ScillaBackend::basic). -/
structure Basic where
  balance : Nat
  nonce : Nat
deriving DecidableEq

/-- Models ScillaBackend::chain_id (scillabackend.rs:216-219): the remote
CHAINID value plus BASE_CHAIN_ID, computed in u64 arithmetic (hence the
modulus 2 ^ 64), then widened to U256. -/
def chain_id (r : Remote) : Outcome Nat :=
  match query_jsonrpc_u64 r "CHAINID" with
  | Outcome.panicked => Outcome.panicked
  | Outcome.ok n => Outcome.ok ((n + BASE_CHAIN_ID) % 2 ^ 64)

/-- Models ScillaBackend::block_number (scillabackend.rs:191-193). -/
def block_number (r : Remote) : Outcome Nat := query_jsonrpc_u64 r "BLOCKNUMBER"

/-- Models ScillaBackend::block_timestamp (scillabackend.rs:200-202). -/
def block_timestamp (r : Remote) : Outcome Nat := query_jsonrpc_u64 r "TIMESTAMP"

/-- Models ScillaBackend::block_difficulty (scillabackend.rs:204-206). -/
def block_difficulty (r : Remote) : Outcome Nat := query_jsonrpc_u64 r "BLOCKDIFFICULTY"

/-- Models ScillaBackend::block_gas_limit (scillabackend.rs:208-210). -/
def block_gas_limit (r : Remote) : Outcome Nat := query_jsonrpc_u64 r "BLOCKGASLIMIT"

/-- Models ScillaBackend::exists (scillabackend.rs:221-226): the balance
state query with use_default set; an Err from query_state_value panics (the
expect), and the account exists iff the query yields Some. -/
def exists_account (r : Remote) (address : List Nat) : Outcome Bool :=
  match query_state_value r address "_balance" none true with
  | QSVResult.panicked => Outcome.panicked
  | QSVResult.err => Outcome.panicked
  | QSVResult.okNone => Outcome.ok false
  | QSVResult.okSome _ => Outcome.ok true

/-- Models ScillaBackend::basic (scillabackend.rs:228-242): balance from the
"_balance" state query with use_default true, nonce from the "_nonce" state
query with use_default false; each expect on an Err panics; a missing value
(None) or a value with no u64 representation becomes 0. -/
def basic (r : Remote) (address : List Nat) : Outcome Basic :=
  match query_state_value r address "_balance" none true with
  | QSVResult.panicked => Outcome.panicked
  | QSVResult.err => Outcome.panicked
  | balq =>
    let balance : Nat :=
      match balq with
      | QSVResult.okSome v => (v.asU64).getD 0
      | _ => 0
    match query_state_value r address "_nonce" none false with
    | QSVResult.panicked => Outcome.panicked
    | QSVResult.err => Outcome.panicked
    | QSVResult.okNone => Outcome.ok { balance := balance, nonce := 0 }
    | QSVResult.okSome v => Outcome.ok { balance := balance, nonce := (v.asU64).getD 0 }

/-- Models ScillaBackend::code (scillabackend.rs:244-252): the "_code" state
query with use_default true; the first expect panics on Err, the second
expect panics on None, and otherwise the string value (empty when not a
string) is returned as bytes. -/
def code (r : Remote) (address : List Nat) : Outcome String :=
  match query_state_value r address "_code" none true with
  | QSVResult.panicked => Outcome.panicked
  | QSVResult.err => Outcome.panicked
  | QSVResult.okNone => Outcome.panicked
  | QSVResult.okSome v => Outcome.ok ((v.asStr).getD "")

/-- Models ScillaBackend::storage (scillabackend.rs:254-264): the
"_evm_storage" state query with the key as index and use_default true; an
Err panics (the expect); a None becomes Value::default() = Null; the value
string (empty when not a string) is hex-decoded (empty bytes on a decode
error) and resized to 32 bytes by appending zeros; the resulting byte
string is the H256, big-endian. -/
def storage (r : Remote) (address : List Nat) (key : List Nat) : Outcome (List Nat) :=
  match query_state_value r address "_evm_storage" (some key) true with
  | QSVResult.panicked => Outcome.panicked
  | QSVResult.err => Outcome.panicked
  | q =>
    let v : Json :=
      match q with
      | QSVResult.okSome v => v
      | _ => Json.null
    let bytes : List Nat := (hexDecode ((v.asStr).getD "")).getD []
    Outcome.ok (resizeZero bytes 32)

/-- Models ScillaBackend::original_storage (scillabackend.rs:268-270):
Some of the current storage value. -/
def original_storage (r : Remote) (address : List Nat) (key : List Nat) :
    Outcome (Option (List Nat)) :=
  match storage r address key with
  | Outcome.panicked => Outcome.panicked
  | Outcome.ok v => Outcome.ok (some v)

/-- evm::ExitReason, by variant. -/
inductive ExitReason where
  | succeeded
  | errored
  | reverted
  | fatal
deriving DecidableEq

/-- One entry of the state diff (main.rs DirtyState / evm::backend::Apply),
with the storage map already reshaped to an ordered (key, value) list. -/
inductive Apply where
  | modify (address : List Nat) (balance nonce : Nat) (code : Option (List Nat))
      (store : List (List Nat × List Nat)) (reset_storage : Bool)
  | delete (address : List Nat)

/-- ethereum::Log. -/
structure EvmLog where
  address : List Nat
  topics : List (List Nat)
  data : List Nat

/-- What the supervised engine run produces on normal completion: the exit
reason from executor.execute, the machine return bytes, and the
state/log deconstruction (main.rs:195-222). -/
structure EngineOutput where
  exit_reason : ExitReason
  return_value : List Nat
  applies : List Apply
  logs : List EvmLog

/-- The caller-facing EvmResult (main.rs:89-95). -/
structure EvmResult where
  exit_reason : ExitReason
  return_value : String
  apply : List Apply
  logs : List EvmLog

/-- jsonrpc_core::ErrorCode, restricted to the codes main.rs produces. -/
inductive ErrCode where
  | invalidParams
  | internalError
deriving DecidableEq

/-- jsonrpc_core::Error. -/
structure RpcError where
  code : ErrCode
  message : String
  data : Option Json

/-- Error::invalid_params: code InvalidParams, the parse error text as
message (the exact library text is irrelevant to the theorems below), no
data. -/
def invalid_params (msg : String) : RpcError :=
  { code := ErrCode.invalidParams, message := msg, data := none }

/-- H160::from_str on the address and caller strings: exactly 20 bytes of
hex (0x-prefix handling of the library elided; theorems only require that
some strings parse). -/
def parseH160 (s : String) : Option (List Nat) :=
  match hexDecode s with
  | some bs => if bs.length = 20 then some bs else none
  | none => none

/-- U256::from_str on the apparent-value string: a non-empty hexadecimal
numeral of at most 64 digits. -/
def parseU256 (s : String) : Option Nat :=
  if s.data.isEmpty ∨ 64 < s.data.length then none
  else s.data.foldl
    (fun acc c =>
      match acc, hexDigitVal c with
      | some a, some d => some (a * 16 + d)
      | _, _ => none)
    (some 0)

/-- evm::Context (main.rs:160-165). -/
structure EvmContext where
  address : List Nat
  caller : List Nat
  apparent_value : Nat

/-- The execution engine (the external evm crate) as consumed by
run_evm_impl: given the context, code, call data and the remote node behind
the backend, the supervised run either completes with an EngineOutput or
panics (a panic raised in the engine or in any ScillaBackend method it
calls unwinds to the catch boundary). -/
def EngineRun : Type :=
  EvmContext → List Nat → List Nat → Remote → Outcome EngineOutput

/-- Models run_evm_impl (main.rs:144-233): hex-decode code and data and
parse address, caller and apparent value (an invalid-parameters error on
failure, before any execution); then run the engine under
panic::catch_unwind, mapping a caught panic to the single structured
internal error (code InternalError, message "EVM execution failed", no
data) and a normal completion to the EvmResult with hex-encoded return
value and the reshaped applies and logs. -/
def run_evm_impl (engine : EngineRun) (r : Remote)
    (address caller code_hex data_hex apparent_value : String) :
    Except RpcError EvmResult :=
  match hexDecode code_hex with
  | none => Except.error (invalid_params "invalid code hex")
  | some codeBytes =>
    match hexDecode data_hex with
    | none => Except.error (invalid_params "invalid data hex")
    | some dataBytes =>
      match parseH160 address with
      | none => Except.error (invalid_params "invalid address")
      | some addr =>
        match parseH160 caller with
        | none => Except.error (invalid_params "invalid caller")
        | some callerAddr =>
          match parseU256 apparent_value with
          | none => Except.error (invalid_params "invalid apparent value")
          | some value =>
            match engine { address := addr, caller := callerAddr,
                           apparent_value := value } codeBytes dataBytes r with
            | Outcome.panicked =>
              Except.error { code := ErrCode.internalError,
                             message := "EVM execution failed", data := none }
            | Outcome.ok out =>
              Except.ok { exit_reason := out.exit_reason,
                          return_value := hexEncode out.return_value,
                          apply := out.applies, logs := out.logs }

/-- The ScillaBackend struct itself (scillabackend.rs:33-36): its only
field is the path of the node's Unix domain socket; in particular no
connection handle is stored across calls. -/
structure ScillaBackend where
  path : String

/-- Connection accounting for call_ipc_server_api (scillabackend.rs:46-70):
every invocation builds a fresh single-purpose tokio runtime (lines 51-54)
and calls ipc_connect(&self.path) (line 56), opening a new connection; the
runtime, and with it the connection, is dropped when the call returns
(comment at lines 48-50).  Given the number of connections opened so far,
one call leaves it incremented. -/
def call_opens_connection (_b : ScillaBackend) (opened : Nat) : Nat := opened + 1

/-- Connections opened after a sequence of n remote calls through one
ScillaBackend, starting from none. -/
def connections_after_calls (b : ScillaBackend) : Nat → Nat
  | 0 => 0
  | n + 1 => call_opens_connection b (connections_after_calls b n)

/-- The all-zero 20-byte address. -/
def zero_addr : List Nat := List.replicate 20 0

/-- The all-zero 20-byte address as 40 hex characters. -/
def zero_addr_hex : String := "0000000000000000000000000000000000000000"

/-- The all-zero 32-byte storage key. -/
def zero_key : List Nat := List.replicate 32 0

/-- A remote whose fetchBlockchainInfo always answers [false]. -/
def remote_metadata_false : Remote :=
  { blockchainInfo := fun _ _ => RemoteReply.value (Json.arr [Json.bool false]),
    externalStateValue := fun _ _ => RemoteReply.timeout }

/-- A remote that never answers in time (used where the remote is
irrelevant). -/
def remote_inert : Remote :=
  { blockchainInfo := fun _ _ => RemoteReply.timeout,
    externalStateValue := fun _ _ => RemoteReply.timeout }

/-- A remote reporting the largest u64 as the chain id. -/
def remote_chain_id_max : Remote :=
  { blockchainInfo := fun q _ =>
      if q = "CHAINID" then RemoteReply.value (Json.arr [Json.bool true, Json.num (2 ^ 64 - 1)])
      else RemoteReply.timeout,
    externalStateValue := fun _ _ => RemoteReply.timeout }

/-- A remote reporting chain id 0. -/
def remote_chain_id_zero : Remote :=
  { blockchainInfo := fun q _ =>
      if q = "CHAINID" then RemoteReply.value (Json.arr [Json.bool true, Json.num 0])
      else RemoteReply.timeout,
    externalStateValue := fun _ _ => RemoteReply.timeout }

/-- A remote with balance 5 whose "_nonce" state answer is absent
(success false). -/
def remote_nonce_absent : Remote :=
  { blockchainInfo := fun _ _ => RemoteReply.timeout,
    externalStateValue := fun _ q =>
      if q.name = "_nonce" then RemoteReply.value (Json.arr [Json.bool false])
      else RemoteReply.value (Json.arr [Json.bool true, Json.num 5]) }

/-- A remote with balance 5 whose "_nonce" state answer is present but not
a number. -/
def remote_nonce_malformed : Remote :=
  { blockchainInfo := fun _ _ => RemoteReply.timeout,
    externalStateValue := fun _ q =>
      if q.name = "_nonce" then RemoteReply.value (Json.arr [Json.bool true, Json.str "abc"])
      else RemoteReply.value (Json.arr [Json.bool true, Json.num 5]) }

/-- A remote with balance 5 whose "_nonce" state answer is an empty array
(no success flag at all). -/
def remote_nonce_noflag : Remote :=
  { blockchainInfo := fun _ _ => RemoteReply.timeout,
    externalStateValue := fun _ q =>
      if q.name = "_nonce" then RemoteReply.value (Json.arr [])
      else RemoteReply.value (Json.arr [Json.bool true, Json.num 5]) }

/-- A remote with balance 5 whose "_nonce" state answer reports success but
omits the value slot. -/
def remote_nonce_noval : Remote :=
  { blockchainInfo := fun _ _ => RemoteReply.timeout,
    externalStateValue := fun _ q =>
      if q.name = "_nonce" then RemoteReply.value (Json.arr [Json.bool true])
      else RemoteReply.value (Json.arr [Json.bool true, Json.num 5]) }

/-- A remote whose "_code" state answer is absent (success false). -/
def remote_code_absent : Remote :=
  { blockchainInfo := fun _ _ => RemoteReply.timeout,
    externalStateValue := fun _ q =>
      if q.name = "_code" then RemoteReply.value (Json.arr [Json.bool false])
      else RemoteReply.timeout }

/-- A remote whose every state answer is the one-byte hex string "ff". -/
def remote_storage_ff : Remote :=
  { blockchainInfo := fun _ _ => RemoteReply.timeout,
    externalStateValue := fun _ _ =>
      RemoteReply.value (Json.arr [Json.bool true, Json.str "ff"]) }

/-- A remote whose every state answer is absent (success false). -/
def remote_storage_absent : Remote :=
  { blockchainInfo := fun _ _ => RemoteReply.timeout,
    externalStateValue := fun _ _ => RemoteReply.value (Json.arr [Json.bool false]) }

/-- A remote whose every metadata answer succeeds with a non-numeric
value. -/
def remote_metadata_nonnum : Remote :=
  { blockchainInfo := fun _ _ => RemoteReply.value (Json.arr [Json.bool true, Json.str "xyz"]),
    externalStateValue := fun _ _ => RemoteReply.timeout }

/-- A remote whose every state answer succeeds with a non-numeric value. -/
def remote_state_nonnum : Remote :=
  { blockchainInfo := fun _ _ => RemoteReply.timeout,
    externalStateValue := fun _ _ =>
      RemoteReply.value (Json.arr [Json.bool true, Json.str "xyz"]) }

/-- A backend bound to the default node socket path. -/
def backend_default_path : ScillaBackend := { path := "/tmp/zilliqa.sock" }

end EvmDs

namespace EvmDs

/-- Helper: folding the big-endian accumulator from an arbitrary start. -/
theorem beVal_foldl (bs : List Nat) (acc : Nat) :
    bs.foldl (fun a b => a * 256 + b) acc = acc * 256 ^ bs.length + beVal bs := by
  induction bs generalizing acc with
  | nil => simp [beVal]
  | cons b rest ih =>
    simp only [List.foldl_cons, List.length_cons, beVal]
    rw [ih (acc * 256 + b)]
    have hb : rest.foldl (fun a b => a * 256 + b) (0 * 256 + b)
        = b * 256 ^ rest.length + beVal rest := by
      rw [ih (0 * 256 + b)]; ring_nf
    rw [hb]; ring

/-- Helper: appending zero bytes multiplies the big-endian value by 256 per
byte. -/
theorem beVal_append_zeros (xs : List Nat) (m : Nat) :
    beVal (xs ++ List.replicate m 0) = beVal xs * 256 ^ m := by
  have hz : beVal (List.replicate m 0) = 0 := by
    induction m with
    | zero => rfl
    | succ k ih =>
      simpa [beVal, List.replicate_succ] using ih
  calc beVal (xs ++ List.replicate m 0)
      = (List.replicate m 0).foldl (fun a b => a * 256 + b) (beVal xs) := by
        unfold beVal; rw [List.foldl_append]
    _ = beVal xs * 256 ^ m + beVal (List.replicate m 0) := by
        rw [beVal_foldl (List.replicate m 0) (beVal xs), List.length_replicate]
    _ = beVal xs * 256 ^ m := by rw [hz, Nat.add_zero]

/-- Helper: a u64-parsed-or-default JSON value is below 2 ^ 64. -/
theorem asU64_getD_lt (v : Json) : (v.asU64).getD 0 < 2 ^ 64 := by
  have h64 : (0 : Nat) < 2 ^ 64 := Nat.pos_pow_of_pos 64 (by decide)
  cases v with
  | num n =>
    by_cases h : n < 2 ^ 64
    · simp only [Json.asU64, if_pos h, Option.getD_some]
      exact h
    · simp only [Json.asU64, if_neg h, Option.getD_none]
      exact h64
  | null => simp only [Json.asU64, Option.getD_none]; exact h64
  | bool b => simp only [Json.asU64, Option.getD_none]; exact h64
  | str s => simp only [Json.asU64, Option.getD_none]; exact h64
  | arr xs => simp only [Json.asU64, Option.getD_none]; exact h64

/-- C1: when the leading success boolean of a blockchain-metadata response
is false, the metadata query panics (no zero or default is substituted),
and an execution whose supervised engine run panics produces the structured
internal-error result. -/
theorem metadata_success_false_fatal (r : Remote) (query_name : String) (resp : Json)
    (hreply : r.blockchainInfo query_name "" = RemoteReply.value resp)
    (hfalse : resp.get 0 = some (Json.bool false)) :
    query_jsonrpc r query_name none = Outcome.panicked ∧
    query_jsonrpc_u64 r query_name = Outcome.panicked ∧
    (∀ n, query_jsonrpc_u64 r query_name ≠ Outcome.ok n) ∧
    run_evm_impl (fun _ _ _ _ => Outcome.panicked) r zero_addr_hex zero_addr_hex "" "" "0"
      = Except.error { code := ErrCode.internalError,
                       message := "EVM execution failed", data := none } := by
  have h1 : query_jsonrpc r query_name none = Outcome.panicked := by
    unfold query_jsonrpc
    simp only [Option.getD, hreply, call_ipc_server_api, hfalse, Json.asBool]
    rfl
  have h2 : query_jsonrpc_u64 r query_name = Outcome.panicked := by
    unfold query_jsonrpc_u64
    rw [h1]
  refine ⟨h1, h2, fun n hn => ?_, rfl⟩
  rw [h2] at hn
  exact Outcome.noConfusion hn

/-- C1 witness at a concrete remote. -/
theorem metadata_success_false_fatal_witness :
    query_jsonrpc_u64 remote_metadata_false "BLOCKNUMBER" = Outcome.panicked :=
  (metadata_success_false_fatal remote_metadata_false "BLOCKNUMBER"
    (Json.arr [Json.bool false]) rfl rfl).2.1

/-- C2: any panic raised from within the engine or the adapter during the
supervised engine run is converted into the single structured
internal-error response (no mutations, no logs, data none), and the request
handler returns that value rather than terminating. -/
theorem engine_abrupt_failure_isolated (engine : EngineRun) (r : Remote)
    (address caller code_hex data_hex apparent_value : String)
    (codeBytes dataBytes addr callerAddr : List Nat) (value : Nat)
    (hcode : hexDecode code_hex = some codeBytes)
    (hdata : hexDecode data_hex = some dataBytes)
    (haddr : parseH160 address = some addr)
    (hcaller : parseH160 caller = some callerAddr)
    (hvalue : parseU256 apparent_value = some value)
    (hpanic : engine { address := addr, caller := callerAddr, apparent_value := value }
        codeBytes dataBytes r = Outcome.panicked) :
    run_evm_impl engine r address caller code_hex data_hex apparent_value
      = Except.error { code := ErrCode.internalError,
                       message := "EVM execution failed", data := none } ∧
    (∀ res : EvmResult,
      run_evm_impl engine r address caller code_hex data_hex apparent_value
        ≠ Except.ok res) := by
  have h : run_evm_impl engine r address caller code_hex data_hex apparent_value
      = Except.error { code := ErrCode.internalError,
                       message := "EVM execution failed", data := none } := by
    unfold run_evm_impl
    rw [hcode, hdata, haddr, hcaller, hvalue]
    simp only [hpanic]
  refine ⟨h, fun res hres => ?_⟩
  rw [h] at hres
  exact Except.noConfusion hres

/-- C2 witness at concrete inputs. -/
theorem engine_abrupt_failure_isolated_witness :
    run_evm_impl (fun _ _ _ _ => Outcome.panicked) remote_inert
      zero_addr_hex zero_addr_hex "" "" "0"
      = Except.error { code := ErrCode.internalError,
                       message := "EVM execution failed", data := none } :=
  (engine_abrupt_failure_isolated (fun _ _ _ _ => Outcome.panicked) remote_inert
    zero_addr_hex zero_addr_hex "" "" "0" [] [] zero_addr zero_addr 0
    rfl rfl rfl rfl rfl rfl).1

/-- C3 counterexample: with the remote reporting the (valid u64) chain id
2 ^ 64 - 1, the u64 addition of BASE_CHAIN_ID wraps, so the returned chain
id is 32999 and not the reported id plus 33000. -/
theorem chain_id_overflow_counterexample :
    chain_id remote_chain_id_max = Outcome.ok 32999 ∧
    chain_id remote_chain_id_max ≠ Outcome.ok (2 ^ 64 - 1 + 33000) := by
  refine ⟨rfl, fun h => ?_⟩
  rw [show chain_id remote_chain_id_max = Outcome.ok 32999 from rfl] at h
  have := Outcome.ok.inj h
  omega

/-- C3 amended: for every remote-reported chain id n (a valid u64,
including 0), the returned chain id is (n + 33000) mod 2 ^ 64; whenever
n + 33000 does not overflow a u64 this equals n + 33000. -/
theorem chain_id_offset_amended (r : Remote) (n : Nat)
    (hreply : r.blockchainInfo "CHAINID" ""
      = RemoteReply.value (Json.arr [Json.bool true, Json.num n]))
    (hn : n < 2 ^ 64) :
    chain_id r = Outcome.ok ((n + BASE_CHAIN_ID) % 2 ^ 64) ∧
    (n + BASE_CHAIN_ID < 2 ^ 64 → chain_id r = Outcome.ok (n + BASE_CHAIN_ID)) := by
  have hget0 : (Json.arr [Json.bool true, Json.num n]).get 0 = some (Json.bool true) := rfl
  have hget1 : (Json.arr [Json.bool true, Json.num n]).get 1 = some (Json.num n) := rfl
  have hqj : query_jsonrpc r "CHAINID" none = Outcome.ok (Json.num n) := by
    unfold query_jsonrpc
    simp only [Option.getD, hreply, call_ipc_server_api, hget0, hget1, Json.asBool, if_true]
  have hq : query_jsonrpc_u64 r "CHAINID" = Outcome.ok n := by
    unfold query_jsonrpc_u64
    rw [hqj]
    simp only [from_value_u64, Json.asU64, if_pos hn, Option.getD_some]
  have h1 : chain_id r = Outcome.ok ((n + BASE_CHAIN_ID) % 2 ^ 64) := by
    unfold chain_id
    rw [hq]
  exact ⟨h1, fun hlt => by rw [h1, Nat.mod_eq_of_lt hlt]⟩

/-- C3 witness: reported chain id 0 yields 33000. -/
theorem chain_id_offset_amended_witness :
    chain_id remote_chain_id_zero = Outcome.ok 33000 :=
  (chain_id_offset_amended remote_chain_id_zero 0 rfl (by decide)).2 (by decide)

/-- Helper: a scalar state query answered [true, v] yields Ok(Some v). -/
theorem qsv_scalar_ok (r : Remote) (address : List Nat) (qname : String) (ud : Bool) (v : Json)
    (h : r.externalStateValue address { name := qname, indices := [], mapdepth := 0 }
      = RemoteReply.value (Json.arr [Json.bool true, v])) :
    query_state_value r address qname none ud = QSVResult.okSome v := by
  have hg0 : (Json.arr [Json.bool true, v]).get 0 = some (Json.bool true) := rfl
  have hg1 : (Json.arr [Json.bool true, v]).get 1 = some v := rfl
  unfold query_state_value
  simp [h, call_ipc_server_api, hg0, hg1, Json.asBool]

/-- Helper: a scalar state query answered [false] yields Ok(None). -/
theorem qsv_scalar_absent (r : Remote) (address : List Nat) (qname : String) (ud : Bool)
    (h : r.externalStateValue address { name := qname, indices := [], mapdepth := 0 }
      = RemoteReply.value (Json.arr [Json.bool false])) :
    query_state_value r address qname none ud = QSVResult.okNone := by
  have hg0 : (Json.arr [Json.bool false]).get 0 = some (Json.bool false) := rfl
  unfold query_state_value
  simp [h, call_ipc_server_api, hg0, Json.asBool]

/-- Helper: a scalar state query without default answered by an empty array
(no success flag) is an internal error. -/
theorem qsv_scalar_noflag_err (r : Remote) (address : List Nat) (qname : String)
    (h : r.externalStateValue address { name := qname, indices := [], mapdepth := 0 }
      = RemoteReply.value (Json.arr [])) :
    query_state_value r address qname none false = QSVResult.err := by
  have hg0 : (Json.arr ([] : List Json)).get 0 = none := rfl
  unfold query_state_value
  simp [h, call_ipc_server_api, hg0]

/-- Helper: a scalar state query without default answered [true] with no
value slot is an internal error. -/
theorem qsv_scalar_noval_err (r : Remote) (address : List Nat) (qname : String)
    (h : r.externalStateValue address { name := qname, indices := [], mapdepth := 0 }
      = RemoteReply.value (Json.arr [Json.bool true])) :
    query_state_value r address qname none false = QSVResult.err := by
  have hg0 : (Json.arr [Json.bool true]).get 0 = some (Json.bool true) := rfl
  have hg1 : (Json.arr [Json.bool true]).get 1 = none := rfl
  unfold query_state_value
  simp [h, call_ipc_server_api, hg0, hg1, Json.asBool]

/-- Helper: a keyed state query answered [true, v] yields Ok(Some v). -/
theorem qsv_keyed_ok (r : Remote) (address key : List Nat) (qname : String) (ud : Bool) (v : Json)
    (h : r.externalStateValue address { name := qname, indices := [key], mapdepth := 1 }
      = RemoteReply.value (Json.arr [Json.bool true, v])) :
    query_state_value r address qname (some key) ud = QSVResult.okSome v := by
  have hg0 : (Json.arr [Json.bool true, v]).get 0 = some (Json.bool true) := rfl
  have hg1 : (Json.arr [Json.bool true, v]).get 1 = some v := rfl
  unfold query_state_value
  simp [h, call_ipc_server_api, hg0, hg1, Json.asBool]

/-- Helper: a keyed state query answered [false] yields Ok(None). -/
theorem qsv_keyed_absent (r : Remote) (address key : List Nat) (qname : String) (ud : Bool)
    (h : r.externalStateValue address { name := qname, indices := [key], mapdepth := 1 }
      = RemoteReply.value (Json.arr [Json.bool false])) :
    query_state_value r address qname (some key) ud = QSVResult.okNone := by
  have hg0 : (Json.arr [Json.bool false]).get 0 = some (Json.bool false) := rfl
  unfold query_state_value
  simp [h, call_ipc_server_api, hg0, Json.asBool]

/-- C4 counterexample: with the remote reporting balance 5 and a present
but malformed nonce value, basic returns balance 5 and nonce 0; the read is
not a hard failure. -/
theorem nonce_malformed_soft_counterexample :
    basic remote_nonce_malformed zero_addr = Outcome.ok { balance := 5, nonce := 0 } ∧
    basic remote_nonce_malformed zero_addr ≠ Outcome.panicked := by
  refine ⟨rfl, fun h => ?_⟩
  rw [show basic remote_nonce_malformed zero_addr
    = Outcome.ok { balance := 5, nonce := 0 } from rfl] at h
  exact Outcome.noConfusion h

/-- C4 amended: for the nonce read, remote-reports-absent yields zero, a
present malformed value also yields zero, and the hard failure (panic)
occurs exactly when the nonce response omits the leading success flag or,
after success, omits the value slot. -/
theorem nonce_policy_amended :
    (∀ (r : Remote) (address : List Nat) (bal : Nat),
      r.externalStateValue address { name := "_balance", indices := [], mapdepth := 0 }
        = RemoteReply.value (Json.arr [Json.bool true, Json.num bal]) → bal < 2 ^ 64 →
      r.externalStateValue address { name := "_nonce", indices := [], mapdepth := 0 }
        = RemoteReply.value (Json.arr [Json.bool false]) →
      basic r address = Outcome.ok { balance := bal, nonce := 0 }) ∧
    (∀ (r : Remote) (address : List Nat) (bal : Nat) (v : Json),
      r.externalStateValue address { name := "_balance", indices := [], mapdepth := 0 }
        = RemoteReply.value (Json.arr [Json.bool true, Json.num bal]) → bal < 2 ^ 64 →
      r.externalStateValue address { name := "_nonce", indices := [], mapdepth := 0 }
        = RemoteReply.value (Json.arr [Json.bool true, v]) → v.asU64 = none →
      basic r address = Outcome.ok { balance := bal, nonce := 0 }) ∧
    (∀ (r : Remote) (address : List Nat) (bal : Nat),
      r.externalStateValue address { name := "_balance", indices := [], mapdepth := 0 }
        = RemoteReply.value (Json.arr [Json.bool true, Json.num bal]) →
      r.externalStateValue address { name := "_nonce", indices := [], mapdepth := 0 }
        = RemoteReply.value (Json.arr []) →
      basic r address = Outcome.panicked) ∧
    (∀ (r : Remote) (address : List Nat) (bal : Nat),
      r.externalStateValue address { name := "_balance", indices := [], mapdepth := 0 }
        = RemoteReply.value (Json.arr [Json.bool true, Json.num bal]) →
      r.externalStateValue address { name := "_nonce", indices := [], mapdepth := 0 }
        = RemoteReply.value (Json.arr [Json.bool true]) →
      basic r address = Outcome.panicked) := by
  refine ⟨fun r address bal hb hblt hn => ?_, fun r address bal v hb hblt hn hv => ?_,
    fun r address bal hb hn => ?_, fun r address bal hb hn => ?_⟩
  · unfold basic
    rw [qsv_scalar_ok r address "_balance" true (Json.num bal) hb,
      qsv_scalar_absent r address "_nonce" false hn]
    simp only [Json.asU64, if_pos hblt, Option.getD_some]
  · unfold basic
    rw [qsv_scalar_ok r address "_balance" true (Json.num bal) hb,
      qsv_scalar_ok r address "_nonce" false v hn]
    simp only [hv, Option.getD_none]
    simp only [Json.asU64, if_pos hblt, Option.getD_some]
  · unfold basic
    rw [qsv_scalar_ok r address "_balance" true (Json.num bal) hb,
      qsv_scalar_noflag_err r address "_nonce" hn]
  · unfold basic
    rw [qsv_scalar_ok r address "_balance" true (Json.num bal) hb,
      qsv_scalar_noval_err r address "_nonce" hn]

/-- C4 witness: the four nonce response shapes at concrete remotes. -/
theorem nonce_policy_amended_witness :
    basic remote_nonce_absent zero_addr = Outcome.ok { balance := 5, nonce := 0 } ∧
    basic remote_nonce_malformed zero_addr = Outcome.ok { balance := 5, nonce := 0 } ∧
    basic remote_nonce_noflag zero_addr = Outcome.panicked ∧
    basic remote_nonce_noval zero_addr = Outcome.panicked :=
  ⟨nonce_policy_amended.1 remote_nonce_absent zero_addr 5 rfl (by decide) rfl,
   nonce_policy_amended.2.1 remote_nonce_malformed zero_addr 5 (Json.str "abc")
     rfl (by decide) rfl rfl,
   nonce_policy_amended.2.2.1 remote_nonce_noflag zero_addr 5 rfl rfl,
   nonce_policy_amended.2.2.2 remote_nonce_noval zero_addr 5 rfl rfl⟩

/-- C5 (code-bug evidence): when the remote reports the "_code" state value
absent (success false), code panics on the second expect
(scillabackend.rs:247) instead of returning the empty code that the claim,
the spec and the comment at scillabackend.rs:126-127 call for. -/
theorem code_absent_panics :
    code remote_code_absent zero_addr = Outcome.panicked ∧
    (∀ s, code remote_code_absent zero_addr ≠ Outcome.ok s) := by
  refine ⟨rfl, fun s h => ?_⟩
  rw [show code remote_code_absent zero_addr = Outcome.panicked from rfl] at h
  exact Outcome.noConfusion h

/-- C6 counterexample: a decoded storage byte string [255] (hex "ff") is
padded on the appended end and read big-endian, so the resulting value is
255 * 256 ^ 31 (left-shifted, numerically large), not 255. -/
theorem storage_short_value_counterexample :
    storage remote_storage_ff zero_addr zero_key = Outcome.ok (255 :: List.replicate 31 0) ∧
    beVal (255 :: List.replicate 31 0) = 255 * 256 ^ 31 ∧
    beVal (255 :: List.replicate 31 0) ≠ 255 := by
  refine ⟨rfl, ?_, by decide⟩
  have h := beVal_append_zeros [255] 31
  exact h

/-- C6 amended: a decoded storage byte string shorter than 32 bytes is
copied into the low-address positions of the 32-byte buffer with zeros
appended at the high-address end; read big-endian, the decoded bytes are
the most significant, so the value is the decoded value left-shifted by
8 * (32 - length) bits. -/
theorem storage_short_value_amended (r : Remote) (address key : List Nat) (s : String)
    (bytes : List Nat)
    (hreply : r.externalStateValue address
        { name := "_evm_storage", indices := [key], mapdepth := 1 }
      = RemoteReply.value (Json.arr [Json.bool true, Json.str s]))
    (hdec : hexDecode s = some bytes)
    (hlen : bytes.length ≤ 32) :
    storage r address key = Outcome.ok (bytes ++ List.replicate (32 - bytes.length) 0) ∧
    beVal (bytes ++ List.replicate (32 - bytes.length) 0)
      = beVal bytes * 256 ^ (32 - bytes.length) := by
  have hq : query_state_value r address "_evm_storage" (some key) true
      = QSVResult.okSome (Json.str s) :=
    qsv_keyed_ok r address key "_evm_storage" true (Json.str s) hreply
  have h1 : storage r address key = Outcome.ok (resizeZero bytes 32) := by
    unfold storage
    rw [hq]
    simp only [Json.asStr, Option.getD_some, hdec]
  have h2 : resizeZero bytes 32 = bytes ++ List.replicate (32 - bytes.length) 0 := by
    unfold resizeZero
    rw [List.take_of_length_le hlen]
  rw [h2] at h1
  exact ⟨h1, beVal_append_zeros bytes (32 - bytes.length)⟩

/-- C6 witness at the concrete remote answering hex "ff". -/
theorem storage_short_value_amended_witness :
    storage remote_storage_ff zero_addr zero_key
      = Outcome.ok ([255] ++ List.replicate 31 0) ∧
    beVal ([255] ++ List.replicate 31 0) = beVal [255] * 256 ^ 31 :=
  storage_short_value_amended remote_storage_ff zero_addr zero_key "ff" [255]
    rfl rfl (by decide)

/-- C7: a storage slot whose remote answer is absent (success false) reads
as the all-zero 32-byte value, and original_storage always returns Some of
exactly the value storage returns. -/
theorem storage_absent_zero_and_original (r : Remote) (address key : List Nat) :
    (r.externalStateValue address { name := "_evm_storage", indices := [key], mapdepth := 1 }
        = RemoteReply.value (Json.arr [Json.bool false]) →
      storage r address key = Outcome.ok (List.replicate 32 0) ∧
      original_storage r address key = Outcome.ok (some (List.replicate 32 0))) ∧
    (∀ v, storage r address key = Outcome.ok v →
      original_storage r address key = Outcome.ok (some v)) := by
  constructor
  · intro h
    have hq : query_state_value r address "_evm_storage" (some key) true = QSVResult.okNone :=
      qsv_keyed_absent r address key "_evm_storage" true h
    have hs : storage r address key = Outcome.ok (List.replicate 32 0) := by
      unfold storage
      rw [hq]
      rfl
    refine ⟨hs, ?_⟩
    unfold original_storage
    rw [hs]
  · intro v hv
    unfold original_storage
    rw [hv]

/-- C7 witness at a concrete remote reporting every slot absent. -/
theorem storage_absent_zero_and_original_witness :
    storage remote_storage_absent zero_addr zero_key = Outcome.ok (List.replicate 32 0) ∧
    original_storage remote_storage_absent zero_addr zero_key
      = Outcome.ok (some (List.replicate 32 0)) :=
  (storage_absent_zero_and_original remote_storage_absent zero_addr zero_key).1 rfl

/-- C8 counterexample: two remote calls through one adapter open two
connections, not one; no connection is reused. -/
theorem connection_reuse_counterexample :
    connections_after_calls backend_default_path 2 = 2 ∧
    ¬ connections_after_calls backend_default_path 2 ≤ 1 := by
  exact ⟨rfl, by decide⟩

/-- C8 amended: the adapter stores only the socket path; every remote call
opens a fresh connection (torn down with its single-purpose runtime when
the call returns), so after n calls n connections have been opened. -/
theorem connection_per_call_amended (b : ScillaBackend) (n : Nat) :
    connections_after_calls b n = n := by
  induction n with
  | zero => rfl
  | succ k ih =>
    simp only [connections_after_calls, call_opens_connection, ih]

/-- C9: a successful metadata response whose value has no u64
representation makes block_number, block_timestamp, block_difficulty,
block_gas_limit and the pre-offset chain id all evaluate to 0 (so chain_id
returns BASE_CHAIN_ID) instead of aborting. -/
theorem metadata_malformed_u64_zero (r : Remote) (v : String → Json)
    (h : ∀ q, r.blockchainInfo q "" = RemoteReply.value (Json.arr [Json.bool true, v q]) ∧
      (v q).asU64 = none) :
    block_number r = Outcome.ok 0 ∧ block_timestamp r = Outcome.ok 0 ∧
    block_difficulty r = Outcome.ok 0 ∧ block_gas_limit r = Outcome.ok 0 ∧
    query_jsonrpc_u64 r "CHAINID" = Outcome.ok 0 ∧ chain_id r = Outcome.ok BASE_CHAIN_ID := by
  have key : ∀ q, query_jsonrpc_u64 r q = Outcome.ok 0 := by
    intro q
    obtain ⟨h1, h2⟩ := h q
    have hg0 : (Json.arr [Json.bool true, v q]).get 0 = some (Json.bool true) := rfl
    have hg1 : (Json.arr [Json.bool true, v q]).get 1 = some (v q) := rfl
    have hqj : query_jsonrpc r q none = Outcome.ok (v q) := by
      unfold query_jsonrpc
      simp [h1, call_ipc_server_api, hg0, hg1, Json.asBool]
    unfold query_jsonrpc_u64
    rw [hqj]
    simp only [from_value_u64, h2, Option.getD_none]
  refine ⟨key _, key _, key _, key _, key _, ?_⟩
  unfold chain_id
  rw [key "CHAINID"]
  rfl

/-- C9 witness at a concrete remote answering the string "xyz". -/
theorem metadata_malformed_u64_zero_witness :
    block_number remote_metadata_nonnum = Outcome.ok 0 ∧
    chain_id remote_metadata_nonnum = Outcome.ok BASE_CHAIN_ID := by
  have h := metadata_malformed_u64_zero remote_metadata_nonnum (fun _ => Json.str "xyz")
    (fun q => ⟨rfl, rfl⟩)
  exact ⟨h.1, h.2.2.2.2.2⟩

/-- C10: every balance and nonce returned by basic is below 2 ^ 64, and a
successful balance or nonce response whose value has no u64 representation
(including numbers at or above 2 ^ 64) is returned as zero. -/
theorem basic_u64_bounded :
    (∀ (r : Remote) (address : List Nat) (b : Basic),
      basic r address = Outcome.ok b → b.balance < 2 ^ 64 ∧ b.nonce < 2 ^ 64) ∧
    (∀ (r : Remote) (address : List Nat) (vb vn : Json),
      r.externalStateValue address { name := "_balance", indices := [], mapdepth := 0 }
        = RemoteReply.value (Json.arr [Json.bool true, vb]) → vb.asU64 = none →
      r.externalStateValue address { name := "_nonce", indices := [], mapdepth := 0 }
        = RemoteReply.value (Json.arr [Json.bool true, vn]) → vn.asU64 = none →
      basic r address = Outcome.ok { balance := 0, nonce := 0 }) := by
  constructor
  · intro r address b hb
    have h64 : (0 : Nat) < 2 ^ 64 := Nat.pos_pow_of_pos 64 (by decide)
    unfold basic at hb
    cases hqb : query_state_value r address "_balance" none true with
    | panicked => rw [hqb] at hb; exact absurd hb (by simp)
    | err => rw [hqb] at hb; exact absurd hb (by simp)
    | okNone =>
      rw [hqb] at hb
      cases hqn : query_state_value r address "_nonce" none false with
      | panicked => rw [hqn] at hb; exact absurd hb (by simp)
      | err => rw [hqn] at hb; exact absurd hb (by simp)
      | okNone =>
        rw [hqn] at hb
        cases Outcome.ok.inj hb
        exact ⟨h64, h64⟩
      | okSome vn =>
        rw [hqn] at hb
        cases Outcome.ok.inj hb
        exact ⟨h64, asU64_getD_lt vn⟩
    | okSome vb =>
      rw [hqb] at hb
      cases hqn : query_state_value r address "_nonce" none false with
      | panicked => rw [hqn] at hb; exact absurd hb (by simp)
      | err => rw [hqn] at hb; exact absurd hb (by simp)
      | okNone =>
        rw [hqn] at hb
        cases Outcome.ok.inj hb
        exact ⟨asU64_getD_lt vb, h64⟩
      | okSome vn =>
        rw [hqn] at hb
        cases Outcome.ok.inj hb
        exact ⟨asU64_getD_lt vb, asU64_getD_lt vn⟩
  · intro r address vb vn hb hvb hn hvn
    unfold basic
    rw [qsv_scalar_ok r address "_balance" true vb hb,
      qsv_scalar_ok r address "_nonce" false vn hn]
    simp only [hvb, hvn, Option.getD_none]

/-- C10 witness at a concrete remote answering the string "xyz" for every
state query. -/
theorem basic_u64_bounded_witness :
    basic remote_state_nonnum zero_addr = Outcome.ok { balance := 0, nonce := 0 } ∧
    (0 : Nat) < 2 ^ 64 := by
  have h := basic_u64_bounded.2 remote_state_nonnum zero_addr
    (Json.str "xyz") (Json.str "xyz") rfl rfl rfl rfl
  have hb := basic_u64_bounded.1 remote_state_nonnum zero_addr
    { balance := 0, nonce := 0 } h
  exact ⟨h, hb.1⟩

end EvmDs
